import Mathlib

/-!
Verification of the experimental control-plane API of this repository
(`airflow/www/api/experimental/endpoints.py`,
`airflow/api/auth/backend/ldap_auth.py`,
`airflow/api/common/experimental/get_dag.py`) against its specification.

The Python code is shallowly embedded: request handlers become pure Lean
functions from their inputs and their collaborators (credential backend,
registry lookups, run trigger, XCom store) to a `Response` paired with the
chronological list of observable side effects (`Event`s: log lines and
collaborator invocations).  Python exceptions become `Except`; optional
values become `Option`.
-/

namespace Airflow

/-- A Python exception is modelled by its message text. -/
abbrev PyExn := String

/-- JSON values as produced by the endpoints under study: every leaf the
handlers emit is a string, an array, or a string-keyed object. -/
inductive JValue where
  | str (s : String)
  | arr (elems : List JValue)
  | obj (fields : List (String × JValue))

/-- An HTTP response body: either a bare text body (`Response("Forbidden", 403)`)
or a JSON body (`jsonify(...)`). -/
inductive Body where
  | text (s : String)
  | json (v : JValue)

/-- An HTTP response: a status code and a body. -/
structure Response where
  status : Nat
  body : Body

/-- Flask's `jsonify`: a JSON body with the default status 200.  Handlers
that need another status overwrite the `status` field afterwards, exactly as
the Python code assigns `response.status_code`. -/
def jsonify (v : JValue) : Response :=
  ⟨200, Body.json v⟩

/-- The credentials carried by an `Authorization` header.  The Flask header
object is modelled as a record exposing exactly the two fields the code
reads from it (`header.username`, `header.password`). -/
structure AuthorizationHeader where
  username : String
  password : String
deriving DecidableEq

/-- `ldap_auth._forbidden`: the fixed forbidden response
`Response("Forbidden", 403)` — a bare text body, not JSON. -/
def _forbidden : Response :=
  ⟨403, Body.text "Forbidden"⟩

/-- Outcome of a wrapped call: the HTTP response returned to the caller and
whether the inner handler function was invoked at all. -/
structure GateResult where
  response : Response
  handlerInvoked : Bool

/-- `ldap_auth.requires_authentication`: the decorator body.
`try_login` is the collaborator `LdapUser.try_login` (raising is `Except.error`);
`handler` is the outcome of calling the wrapped function (its own raising is
also `Except.error`); `header` is `request.headers.get("Authorization")`.
The `try` block spans the login call, the handler call and `make_response`
(modelled as the identity on `Response`); any exception from it falls
through to `_forbidden`. -/
def requires_authentication
    (try_login : String → String → Except PyExn Unit)
    (handler : Except PyExn Response)
    (header : Option AuthorizationHeader) : GateResult :=
  match header with
  | none => ⟨_forbidden, false⟩
  | some h =>
    match try_login h.username h.password with
    | Except.error _ => ⟨_forbidden, false⟩
    | Except.ok _ =>
      match handler with
      | Except.error _ => ⟨_forbidden, true⟩
      | Except.ok r => ⟨r, true⟩

/-- The `test` endpoint handler body: `jsonify` of the status-OK object. -/
def test : Response :=
  jsonify (JValue.obj [("status", JValue.str "OK")])

/-! ## The timestamp codec

`datetime.strptime` with the fixed format `%Y-%m-%dT%H:%M:%S`, embedded after the CPython
`_strptime`: each directive matches the digit pattern CPython compiles for
it (`%Y` exactly four digits; `%m`, `%d`, `%H`, `%M`, `%S` one or two
digits within the directive's range, where two-digit `%S` admits the leap
seconds 60 and 61), literals must match exactly (`T` case-insensitively,
since CPython compiles the format with IGNORECASE), the whole input must be
consumed, and the final `datetime` construction re-validates the field
ranges (year at least 1, day within the month, second at most 59). -/

/-- A parsed `datetime.datetime` value (no timezone, no microseconds). -/
structure DateTime where
  year : Nat
  month : Nat
  day : Nat
  hour : Nat
  minute : Nat
  second : Nat
deriving DecidableEq

/-- The numeric value of a decimal digit character, if it is one. -/
def digitVal (c : Char) : Option Nat :=
  if c.isDigit then some (c.toNat - 48) else none

/-- Match exactly four decimal digits (CPython's pattern for `%Y`). -/
def parse4 : List Char → Option (Nat × List Char)
  | c1 :: c2 :: c3 :: c4 :: rest =>
    match digitVal c1, digitVal c2, digitVal c3, digitVal c4 with
    | some a, some b, some c, some d => some (1000 * a + 100 * b + 10 * c + d, rest)
    | _, _, _, _ => none
  | _ => none

/-- Match one or two decimal digits: a two-digit run is accepted exactly
when its value lies in `[lo2, hi2]`, a single digit exactly when it is at
least `lo1`.  (In the source patterns a digit is never followed by another
digit that the subsequent literal could absorb, so greedy matching agrees
with CPython's alternation.) -/
def parse12 (lo2 hi2 lo1 : Nat) : List Char → Option (Nat × List Char)
  | c1 :: c2 :: rest =>
    match digitVal c1, digitVal c2 with
    | some d1, some d2 =>
      let v := 10 * d1 + d2
      if lo2 ≤ v ∧ v ≤ hi2 then some (v, rest) else none
    | some d1, none =>
      if lo1 ≤ d1 then some (d1, c2 :: rest) else none
    | none, _ => none
  | [c1] =>
    match digitVal c1 with
    | some d1 => if lo1 ≤ d1 then some (d1, []) else none
    | none => none
  | [] => none

/-- Match one literal character exactly. -/
def expectChar (c : Char) : List Char → Option (List Char)
  | c1 :: rest => if c1 = c then some rest else none
  | [] => none

/-- Match the literal `T` case-insensitively (IGNORECASE). -/
def expectT : List Char → Option (List Char)
  | c1 :: rest => if c1 = 'T' ∨ c1 = 't' then some rest else none
  | [] => none

/-- Number of days in a month (Gregorian, as Python's `datetime`). -/
def daysInMonth (y m : Nat) : Nat :=
  if m = 2 then
    if (y % 4 = 0 ∧ y % 100 ≠ 0) ∨ y % 400 = 0 then 29 else 28
  else if m = 4 ∨ m = 6 ∨ m = 9 ∨ m = 11 then 30
  else 31

/-- `datetime.strptime` of the input under `%Y-%m-%dT%H:%M:%S`: `none` is a `ValueError`. -/
def strptime (s : String) : Option DateTime := do
  let cs := s.data
  let (y, cs) ← parse4 cs
  let cs ← expectChar '-' cs
  let (mo, cs) ← parse12 1 12 1 cs
  let cs ← expectChar '-' cs
  let (d, cs) ← parse12 1 31 1 cs
  let cs ← expectT cs
  let (h, cs) ← parse12 0 23 0 cs
  let cs ← expectChar ':' cs
  let (mi, cs) ← parse12 0 59 0 cs
  let cs ← expectChar ':' cs
  let (sec, cs) ← parse12 0 61 0 cs
  if cs = [] ∧ 1 ≤ y ∧ sec ≤ 59 ∧ d ≤ daysInMonth y mo then
    some ⟨y, mo, d, h, mi, sec⟩
  else
    none

/-- Left-pad a number with zeros to two digits. -/
def pad2 (n : Nat) : String :=
  if n < 10 then "0" ++ toString n else toString n

/-- Left-pad a number with zeros to four digits. -/
def pad4 (n : Nat) : String :=
  if n < 10 then "000" ++ toString n
  else if n < 100 then "00" ++ toString n
  else if n < 1000 then "0" ++ toString n
  else toString n

/-- `str(datetime)`: `YYYY-MM-DD HH:MM:SS` (seconds always shown, no
microseconds in our model). -/
def DateTime.pyStr (t : DateTime) : String :=
  pad4 t.year ++ "-" ++ pad2 t.month ++ "-" ++ pad2 t.day ++ " " ++
    pad2 t.hour ++ ":" ++ pad2 t.minute ++ ":" ++ pad2 t.second

/-- `datetime.isoformat()`: `YYYY-MM-DDTHH:MM:SS`. -/
def DateTime.isoformat (t : DateTime) : String :=
  pad4 t.year ++ "-" ++ pad2 t.month ++ "-" ++ pad2 t.day ++ "T" ++
    pad2 t.hour ++ ":" ++ pad2 t.minute ++ ":" ++ pad2 t.second

/-- `datetime.strftime("%Y-%m-%d %H:%M")` as used by `latest_dag_runs`. -/
def DateTime.strftimeYmdHM (t : DateTime) : String :=
  pad4 t.year ++ "-" ++ pad2 t.month ++ "-" ++ pad2 t.day ++ " " ++
    pad2 t.hour ++ ":" ++ pad2 t.minute

/-- The 400 error text every date-accepting endpoint formats on a
`ValueError` from `strptime`. -/
def dateErrorMessage (t : String) : String :=
  "Given execution date, " ++ t ++ ", could not be identified " ++
    "as a date. Example date format: 2015-11-16T14:34:15"

/-! ## The data model and the collaborator registry

Entity attribute sets (`vars(obj)`) are ordered association lists from
attribute names to values of an abstract Python-value type `α`; Python's
`str` on those values is a parameter `strFn`.  The definition registry
(`DagBag`) exposes the membership test `dag_id in dagbag.dags` and the
retrieval `dagbag.get_dag`; runs are reached through a collaborator lookup
`runsOf`. -/

/-- A workflow definition as the endpoints see it: its instance variables,
its tasks (task id to task instance variables) and the execution dates
returned by `get_active_runs()`. -/
structure Dag (α : Type) where
  attrs : List (String × α)
  tasks : List (String × List (String × α))
  active_runs : List DateTime

/-- A dag run as the endpoints see it: its instance variables and its task
instances (task id to instance variables); `get_task_instances()` returns
all of them in order. -/
structure DagRun (α : Type) where
  attrs : List (String × α)
  task_instances : List (String × List (String × α))

/-- The definition registry: the key set of `dagbag.dags` and the retrieval
`dagbag.get_dag`. -/
structure DagBag (α : Type) where
  dags : List String
  get_dag : String → Dag α

/-- `s.startswith('_')`: the non-public attribute marker test. -/
def startsWithUnderscore (s : String) : Bool :=
  match s.data with
  | [] => false
  | c :: _ => c == '_'

/-- The dict comprehension `{k: str(v) for k, v in vars(obj).items() if not
k.startswith('_')}` shared by every introspection endpoint. -/
def serializeObj {α : Type} (strFn : α → String)
    (attrs : List (String × α)) : List (String × JValue) :=
  (attrs.filter (fun kv => !(startsWithUnderscore kv.1))).map
    (fun kv => (kv.1, JValue.str (strFn kv.2)))

/-- Python dict assignment `d[k] = v` on an association list without
duplicate keys: overwrite the existing entry or append a new one. -/
def dictInsert (d : List (String × JValue)) (k : String) (v : JValue) :
    List (String × JValue) :=
  if d.any (fun kv => kv.1 == k) then
    d.map (fun kv => if kv.1 == k then (k, v) else kv)
  else
    d ++ [(k, v)]

/-- `get_dag.get_dag` (from `airflow/api/common/experimental/get_dag.py`):
raise `AirflowException("Dag id {} not found")` when the id is not in the
registry, otherwise return `dagbag.get_dag(dag_id)`.  The second component
records whether the registry retrieval `dagbag.get_dag` was called. -/
def get_dag {α : Type} (bag : DagBag α) (dag_id : String) :
    Except PyExn (Dag α) × Bool :=
  if bag.dags.contains dag_id = false then
    (Except.error ("Dag id " ++ dag_id ++ " not found"), false)
  else
    (Except.ok (bag.get_dag dag_id), true)

/-- Modelled from the spec: `get_dag_run.get_dag_run` is code of this
repository not under `src/` (only its caller is).  Per §4.5 the lookup
chain resolves the definition first, failing with the message naming the
missing link (`"Dag id {} not found"` as in `get_dag`), then the run,
failing with `"Dag Run for date {t} not found in dag {d}"`. -/
def get_dag_run {α : Type} (bag : DagBag α)
    (runsOf : String → DateTime → Option (DagRun α))
    (dag_id : String) (execution_date : DateTime) : Except PyExn (DagRun α) :=
  if bag.dags.contains dag_id = false then
    Except.error ("Dag id " ++ dag_id ++ " not found")
  else
    match runsOf dag_id execution_date with
    | none =>
      Except.error ("Dag Run for date " ++ execution_date.pyStr ++
        " not found in dag " ++ dag_id)
    | some r => Except.ok r

/-- Modelled from the spec: `get_task.get_task` is code of this repository
not under `src/`.  Per §4.5 the definition is resolved first (`"Dag id {}
not found"`), then the task within it. -/
def get_task {α : Type} (bag : DagBag α) (dag_id task_id : String) :
    Except PyExn (List (String × α)) :=
  if bag.dags.contains dag_id = false then
    Except.error ("Dag id " ++ dag_id ++ " not found")
  else
    match (bag.get_dag dag_id).tasks.find? (fun t => t.1 == task_id) with
    | none => Except.error ("Task " ++ task_id ++ " not found in dag " ++ dag_id)
    | some t => Except.ok t.2

/-- Modelled from the spec: `get_task_instance.get_task_instance` is code
of this repository not under `src/`.  Per §4.5 resolution proceeds strictly
definition, task, run, instance, short-circuiting at the first missing link
with the message naming it (`"Task {s} instance for date {t} not found"`
for the last link). -/
def get_task_instance {α : Type} (bag : DagBag α)
    (runsOf : String → DateTime → Option (DagRun α))
    (dag_id task_id : String) (execution_date : DateTime) :
    Except PyExn (List (String × α)) :=
  if bag.dags.contains dag_id = false then
    Except.error ("Dag id " ++ dag_id ++ " not found")
  else if (bag.get_dag dag_id).tasks.any (fun t => t.1 == task_id) = false then
    Except.error ("Task " ++ task_id ++ " not found in dag " ++ dag_id)
  else
    match runsOf dag_id execution_date with
    | none =>
      Except.error ("Dag Run for date " ++ execution_date.pyStr ++
        " not found in dag " ++ dag_id)
    | some run =>
      match run.task_instances.find? (fun t => t.1 == task_id) with
      | none =>
        Except.error ("Task " ++ task_id ++ " instance for date " ++
          execution_date.pyStr ++ " not found")
      | some ti => Except.ok ti.2

/-! ## The endpoints

Each handler returns its `Response` paired with the chronological list of
observable effects: log lines and collaborator invocations. -/

/-- Observable side effects of a handler. -/
inductive Event where
  | log (msg : String)
  | triggerDagCall (dag_id : String) (run_id : Option String)
      (conf : Option String) (execution_date : Option DateTime)
  | getDagRunCall (dag_id : String) (execution_date : DateTime)
  | getTaskInstanceCall (dag_id task_id : String) (execution_date : DateTime)
  | xcomSetCall (dag_id task_id : String) (execution_date : DateTime)
      (key value : String)
deriving DecidableEq

/-- The JSON body of a request to the `trigger_dag` endpoint, after the
field presence tests (an absent or `null` `execution_date` is
`none`). -/
structure TriggerRequest where
  run_id : Option String
  conf : Option String
  execution_date : Option String

/-- The tail of `endpoints.trigger_dag` after date conversion: call the
collaborator `trigger.trigger_dag` (whose `AirflowException` carries the
message `err`, and whose success value is `str(dr)` for the created run),
map failure to 404 `{"error": ...}`, log `"User {} created {}"` when a user
identity is present, and answer `{"message": "Created {dr}"}`. -/
def trigger_dag_run
    (trigger : String → Option String → Option String → Option DateTime →
      Except PyExn String)
    (user : Option String) (dag_id : String) (data : TriggerRequest)
    (execution_date : Option DateTime) : Response × List Event :=
  match trigger dag_id data.run_id data.conf execution_date with
  | Except.error err =>
    (⟨404, Body.json (JValue.obj [("error", JValue.str err)])⟩,
     [Event.triggerDagCall dag_id data.run_id data.conf execution_date,
      Event.log err])
  | Except.ok dr =>
    (jsonify (JValue.obj [("message", JValue.str ("Created " ++ dr))]),
     Event.triggerDagCall dag_id data.run_id data.conf execution_date ::
       (match user with
        | some u => [Event.log ("User " ++ u ++ " created " ++ dr)]
        | none => []))

/-- `endpoints.trigger_dag`: convert a supplied textual execution date,
answering 400 with the formatted error on a `ValueError` (the collaborator
is not called), then delegate to `trigger_dag_run`. -/
def trigger_dag
    (trigger : String → Option String → Option String → Option DateTime →
      Except PyExn String)
    (user : Option String) (dag_id : String) (data : TriggerRequest) :
    Response × List Event :=
  match data.execution_date with
  | some ed_str =>
    match strptime ed_str with
    | none =>
      let msg := dateErrorMessage ed_str
      (⟨400, Body.json (JValue.obj [("error", JValue.str msg)])⟩,
       [Event.log msg])
    | some ed => trigger_dag_run trigger user dag_id data (some ed)
  | none => trigger_dag_run trigger user dag_id data none

/-- `endpoints.dag_info`: serialize the definition's public instance
variables, assign the `active_runs` entry of `info` to the ISO forms of
`dag.get_active_runs()`, and map an `AirflowException` from the lookup to
404 `{"error": ...}`. -/
def dag_info {α : Type} (strFn : α → String) (bag : DagBag α)
    (dag_id : String) : Response :=
  match (get_dag bag dag_id).1 with
  | Except.error e =>
    ⟨404, Body.json (JValue.obj [("error", JValue.str e)])⟩
  | Except.ok dag =>
    let info := serializeObj strFn dag.attrs
    let info := dictInsert info "active_runs"
      (JValue.arr (dag.active_runs.map (fun d => JValue.str d.isoformat)))
    jsonify (JValue.obj info)

/-- `endpoints.dag_run_info`, embedded from its statements as written.
Note: in the source the date-conversion block (endpoints.py lines 124-137)
is indented eight spaces under a four-space function body — a Python
IndentationError, so the module as shipped cannot be imported at all.  The
embedding follows the statement sequence, whose intent is unambiguous and
identical to the other three date-accepting endpoints. -/
def dag_run_info {α : Type} (strFn : α → String) (bag : DagBag α)
    (runsOf : String → DateTime → Option (DagRun α))
    (dag_id : String) (execution_date : String) : Response × List Event :=
  match strptime execution_date with
  | none =>
    let msg := dateErrorMessage execution_date
    (⟨400, Body.json (JValue.obj [("error", JValue.str msg)])⟩,
     [Event.log msg])
  | some ed =>
    match get_dag_run bag runsOf dag_id ed with
    | Except.error e =>
      (⟨404, Body.json (JValue.obj [("error", JValue.str e)])⟩,
       [Event.getDagRunCall dag_id ed, Event.log e])
    | Except.ok run =>
      let info := serializeObj strFn run.attrs
      let info := dictInsert info "task_instances"
        (JValue.arr (run.task_instances.map
          (fun ti => JValue.obj (serializeObj strFn ti.2))))
      (jsonify (JValue.obj info), [Event.getDagRunCall dag_id ed])

/-- `endpoints.task_info`: serialize the task's public instance variables,
mapping a lookup `AirflowException` to 404 `{"error": ...}`. -/
def task_info {α : Type} (strFn : α → String) (bag : DagBag α)
    (dag_id task_id : String) : Response :=
  match get_task bag dag_id task_id with
  | Except.error e =>
    ⟨404, Body.json (JValue.obj [("error", JValue.str e)])⟩
  | Except.ok info => jsonify (JValue.obj (serializeObj strFn info))

/-- `endpoints.task_instance_info`: convert the textual execution date
(400 on `ValueError`, the lookup never runs), then serialize the instance's
public instance variables, mapping a lookup `AirflowException` to 404. -/
def task_instance_info {α : Type} (strFn : α → String) (bag : DagBag α)
    (runsOf : String → DateTime → Option (DagRun α))
    (dag_id execution_date task_id : String) : Response × List Event :=
  match strptime execution_date with
  | none =>
    let msg := dateErrorMessage execution_date
    (⟨400, Body.json (JValue.obj [("error", JValue.str msg)])⟩,
     [Event.log msg])
  | some ed =>
    match get_task_instance bag runsOf dag_id task_id ed with
    | Except.error e =>
      (⟨404, Body.json (JValue.obj [("error", JValue.str e)])⟩,
       [Event.getTaskInstanceCall dag_id task_id ed, Event.log e])
    | Except.ok info =>
      (jsonify (JValue.obj (serializeObj strFn info)),
       [Event.getTaskInstanceCall dag_id task_id ed])

/-- The audit log line `write_xcom` emits before anything else, with the
execution date still in its raw textual form. -/
def writeXcomLogLine (dag_id task_id execution_date key value : String) :
    String :=
  "WriteXCom API called with parameters: dag_id: " ++ dag_id ++
    "; task_id: " ++ task_id ++ "; execution_date: " ++ execution_date ++
    "; key: " ++ key ++ "; value: " ++ value

/-- The success message of `write_xcom` (the execution date here is the
parsed datetime, rendered by `str`). -/
def xcomSetMessage (dag_id task_id : String) (execution_date : DateTime)
    (key value : String) : String :=
  "XCom " ++ key ++ " has been set to " ++ value ++ " for task " ++
    task_id ++ " in DAG " ++ dag_id ++ " with the execution date " ++
    execution_date.pyStr

/-- `endpoints.write_xcom`: log the audit line, convert the textual
execution date (400 on `ValueError`), answer 404 `{"error": "Dag {} not
found"}` when the id is not in the module-level registry, otherwise call
`models.XCom.set` with the five coordinates and answer the success
message. -/
def write_xcom {α : Type} (bag : DagBag α)
    (dag_id task_id execution_date key value : String) :
    Response × List Event :=
  let logLine := writeXcomLogLine dag_id task_id execution_date key value
  match strptime execution_date with
  | none =>
    let msg := dateErrorMessage execution_date
    (⟨400, Body.json (JValue.obj [("error", JValue.str msg)])⟩,
     [Event.log logLine, Event.log msg])
  | some ed =>
    if bag.dags.contains dag_id = false then
      (⟨404, Body.json (JValue.obj
          [("error", JValue.str ("Dag " ++ dag_id ++ " not found"))])⟩,
       [Event.log logLine])
    else
      (jsonify (JValue.obj
          [("message", JValue.str (xcomSetMessage dag_id task_id ed key value))]),
       [Event.log logLine, Event.xcomSetCall dag_id task_id ed key value])

/-- The scoping tuple of an XCom entry. -/
structure XComCoord where
  dag_id : String
  task_id : String
  execution_date : DateTime
  key : String
deriving DecidableEq

/-- Modelled from the spec: `models.XCom.set` is code of this repository
not under `src/`.  Per §4.6 and the data model it upserts the entry keyed
by the scoping tuple: writing an existing key overwrites its value, no
history is retained. -/
def xcomStoreSet (store : List (XComCoord × String)) (c : XComCoord)
    (v : String) : List (XComCoord × String) :=
  if store.any (fun e => e.1 == c) then
    store.map (fun e => if e.1 == c then (c, v) else e)
  else
    store ++ [(c, v)]

/-- Reading an XCom entry back from the store (the collaborator read used
to state the upsert property). -/
def xcomStoreGet (store : List (XComCoord × String)) (c : XComCoord) :
    Option String :=
  (store.find? (fun e => e.1 == c)).map (fun e => e.2)

/-- A row returned by `DagRun.get_latest_runs()`: the fields
`latest_dag_runs` reads from it. -/
structure DagRunLite where
  dag_id : String
  execution_date : Option DateTime
  start_date : Option DateTime

/-- One payload entry of `latest_dag_runs`: note that a missing start date
renders as the empty string (`(dagrun.start_date or '') and ...`), and that
`url_for` is the collaborator building the web link. -/
def latestRunEntry (url_for : String → DateTime → String) (r : DagRunLite)
    (ed : DateTime) : JValue :=
  JValue.obj
    [("dag_id", JValue.str r.dag_id),
     ("execution_date", JValue.str ed.strftimeYmdHM),
     ("start_date", JValue.str
       (match r.start_date with
        | none => ""
        | some sd => sd.strftimeYmdHM)),
     ("dag_run_url", JValue.str (url_for r.dag_id ed))]

/-- `endpoints.latest_dag_runs`: one entry per latest run whose
`execution_date` is present; runs without one are skipped. -/
def latest_dag_runs (url_for : String → DateTime → String)
    (dagruns : List DagRunLite) : Response :=
  jsonify (JValue.arr (dagruns.filterMap (fun r =>
    match r.execution_date with
    | none => none
    | some ed => some (latestRunEntry url_for r ed))))

/-! ## Helper notions and lemmas -/

/-- `sub` occurs verbatim inside `s`. -/
def containsText (s sub : String) : Prop :=
  ∃ pre post : String, s = pre ++ sub ++ post

/-- A concrete trigger collaborator used in witnesses: reports the
duplicate-run conflict when a date is supplied, succeeds otherwise. -/
def dupTrigger : String → Option String → Option String → Option DateTime →
    Except PyExn String := fun _ _ _ ed =>
  match ed with
  | some _ => Except.error "A Dag Run already exists for dag id tutorial"
  | none => Except.ok "<DagRun tutorial>"

/-- A concrete definition for witnesses: one public and one non-public
attribute, one task, one active run. -/
def sampleDag : Dag String :=
  ⟨[("dag_id", "tutorial"), ("_comps", "internal")],
   [("print_date", [("task_id", "print_date")])],
   [⟨2015, 11, 16, 14, 34, 15⟩]⟩

/-- A concrete registry for witnesses holding only `sampleDag`. -/
def sampleBag : DagBag String :=
  ⟨["tutorial"], fun _ => sampleDag⟩

/-- A concrete run for witnesses: two task instances, attributes with and
without the non-public marker. -/
def sampleRun : DagRun String :=
  ⟨[("state", "running"), ("_sa_instance_state", "x")],
   [("print_date", [("duration", "5"), ("_log", "L")]), ("sleep", [])]⟩

/-- A concrete run lookup for witnesses always finding `sampleRun`. -/
def sampleRunsOf : String → DateTime → Option (DagRun String) :=
  fun _ _ => some sampleRun

/-- The 400 error message echoes the offending input text. -/
theorem dateErrorMessage_echoes_input (t : String) :
    containsText (dateErrorMessage t) t := by
  refine ⟨"Given execution date, ",
    ", could not be identified " ++
      "as a date. Example date format: 2015-11-16T14:34:15", ?_⟩
  apply String.ext
  simp [dateErrorMessage, String.data_append, List.append_assoc]

/-- The 400 error message carries the one-line example of the expected
format. -/
theorem dateErrorMessage_shows_example (t : String) :
    containsText (dateErrorMessage t) "2015-11-16T14:34:15" := by
  refine ⟨"Given execution date, " ++ t ++
    ", could not be identified as a date. Example date format: ",
    "", ?_⟩
  apply String.ext
  simp only [dateErrorMessage, String.data_append, List.append_assoc,
    List.append_nil, List.append_cancel_left_eq, List.append_right_inj]
  decide

/-- Every key a serialized mapping exposes is the name of one of the
object's attributes. -/
theorem serializeObj_key_mem {α : Type} {strFn : α → String}
    {attrs : List (String × α)} {y : String × JValue}
    (hy : y ∈ serializeObj strFn attrs) : ∃ v, (y.1, v) ∈ attrs := by
  unfold serializeObj at hy
  rcases List.mem_map.mp hy with ⟨kv, hkv, rfl⟩
  exact ⟨kv.2, (List.mem_filter.mp hkv).1⟩

/-- If no attribute bears the name `k`, neither does the serialized
mapping. -/
theorem serializeObj_no_key {α : Type} (strFn : α → String)
    (attrs : List (String × α)) (k : String)
    (h : attrs.any (fun kv => kv.1 == k) = false) :
    (serializeObj strFn attrs).any (fun kv => kv.1 == k) = false := by
  rw [Bool.eq_false_iff]
  intro hc
  rcases List.any_eq_true.mp hc with ⟨y, hy, hk⟩
  rcases serializeObj_key_mem hy with ⟨v, hv⟩
  have : attrs.any (fun kv => kv.1 == k) = true :=
    List.any_eq_true.mpr ⟨(y.1, v), hv, hk⟩
  rw [h] at this
  exact Bool.noConfusion this

/-- Dict assignment of a fresh key appends it. -/
theorem dictInsert_fresh (d : List (String × JValue)) (k : String)
    (v : JValue) (h : d.any (fun kv => kv.1 == k) = false) :
    dictInsert d k v = d ++ [(k, v)] := by
  simp [dictInsert, h]

/-! ## C1, C9, C3: the authentication gate and the test endpoint -/

/-- C1: for every request to an endpoint wrapped by
`requires_authentication`, if no Authorization header is presented, or the
credential-verification call (`LdapUser.try_login`) raises any exception
whatsoever, the wrapped call returns exactly the fixed response with status
403 and literal body `"Forbidden"` (a bare text body, not JSON), and the
inner handler function is never invoked. -/
theorem auth_gate_fail_closed
    (try_login : String → String → Except PyExn Unit)
    (handler : Except PyExn Response)
    (header : Option AuthorizationHeader)
    (h : header = none ∨ ∃ hd e, header = some hd ∧
      try_login hd.username hd.password = Except.error e) :
    requires_authentication try_login handler header = ⟨_forbidden, false⟩ ∧
    _forbidden = ⟨403, Body.text "Forbidden"⟩ := by
  refine ⟨?_, rfl⟩
  rcases h with h | ⟨hd, e, rfl, hlogin⟩
  · subst h; rfl
  · simp [requires_authentication, hlogin]

theorem auth_gate_fail_closed_witness :
    (requires_authentication (fun _ _ => Except.error "LDAP unreachable")
        (Except.ok test) (some ⟨"alice", "secret"⟩) = ⟨_forbidden, false⟩ ∧
      _forbidden = ⟨403, Body.text "Forbidden"⟩) ∧
    (requires_authentication (fun _ _ => Except.ok ())
        (Except.ok test) none = ⟨_forbidden, false⟩ ∧
      _forbidden = ⟨403, Body.text "Forbidden"⟩) :=
  ⟨auth_gate_fail_closed _ _ _
      (Or.inr ⟨⟨"alice", "secret"⟩, "LDAP unreachable", rfl, rfl⟩),
   auth_gate_fail_closed _ _ _ (Or.inl rfl)⟩

/-- C9: for every request carrying an Authorization header, if the inner
wrapped handler itself raises any exception after credential verification
succeeds, `requires_authentication` suppresses the exception and returns
the 403 `"Forbidden"` response — identical to the response of an
unauthenticated request, never a propagated fault or a 500. -/
theorem auth_gate_suppresses_handler_exception
    (try_login : String → String → Except PyExn Unit)
    (hd : AuthorizationHeader) (e : PyExn)
    (hlogin : try_login hd.username hd.password = Except.ok ()) :
    requires_authentication try_login (Except.error e) (some hd) =
      ⟨_forbidden, true⟩ ∧
    (requires_authentication try_login (Except.error e) (some hd)).response =
      (requires_authentication try_login (Except.error e) none).response ∧
    _forbidden = ⟨403, Body.text "Forbidden"⟩ := by
  refine ⟨?_, ?_, rfl⟩ <;> simp [requires_authentication, hlogin]

theorem auth_gate_suppresses_handler_exception_witness :
    requires_authentication (fun _ _ => Except.ok ())
        (Except.error "KeyError: user") (some ⟨"alice", "secret"⟩) =
      ⟨_forbidden, true⟩ ∧
    (requires_authentication (fun _ _ => Except.ok ())
        (Except.error "KeyError: user") (some ⟨"alice", "secret"⟩)).response =
      (requires_authentication (fun _ _ => Except.ok ())
        (Except.error "KeyError: user") none).response ∧
    _forbidden = ⟨403, Body.text "Forbidden"⟩ :=
  auth_gate_suppresses_handler_exception _ ⟨"alice", "secret"⟩ _ rfl

/-- C3 counterexample: the claim says the `/test` endpoint requires no
credential and answers 200 `{"status": "OK"}` to every request.  In the
source the route is wrapped by `@requires_authentication` like every other
endpoint, so the concrete request with no Authorization header gets the
fixed 403 `"Forbidden"` response and the handler never runs. -/
theorem test_requires_credential_counterexample :
    (requires_authentication (fun _ _ => Except.ok ())
      (Except.ok test) none).response.status = 403 ∧
    ¬ (requires_authentication (fun _ _ => Except.ok ())
      (Except.ok test) none).response.status = 200 ∧
    (requires_authentication (fun _ _ => Except.ok ())
      (Except.ok test) none).response.body = Body.text "Forbidden" ∧
    (requires_authentication (fun _ _ => Except.ok ())
      (Except.ok test) none).handlerInvoked = false :=
  ⟨rfl, by decide, rfl, rfl⟩

/-- C3 amended: the `/test` route is wrapped by `requires_authentication`
exactly like every other endpoint.  Without an Authorization header it
answers the fixed 403 `"Forbidden"`; under a credential the backend accepts
it answers 200 with body `{"status": "OK"}`. -/
theorem test_endpoint_amended
    (try_login : String → String → Except PyExn Unit)
    (hd : AuthorizationHeader)
    (hlogin : try_login hd.username hd.password = Except.ok ()) :
    (requires_authentication try_login (Except.ok test) none).response =
      _forbidden ∧
    requires_authentication try_login (Except.ok test) (some hd) =
      ⟨⟨200, Body.json (JValue.obj [("status", JValue.str "OK")])⟩, true⟩ := by
  exact ⟨rfl, by simp [requires_authentication, hlogin, test, jsonify]⟩

/-! ## C2: rejection of malformed timestamps -/

/-- C2: for every timestamp text `t` the codec rejects, each date-accepting
endpoint answers 400 with body `{"error": dateErrorMessage t}`, the message
echoes the offending input and the example format string, and no downstream
component is invoked — the effect lists hold nothing but log lines, in
particular no `triggerDagCall`, `getDagRunCall`, `getTaskInstanceCall` or
`xcomSetCall`.  (In the shipped source `dag_run_info` can never actually
run: its date-conversion block is mis-indented, an IndentationError that
breaks the whole module import — see the doc comment on `dag_run_info`; the
conjunct about it settles the statement sequence as written.) -/
theorem malformed_timestamp_rejected
    {α : Type} (strFn : α → String) (bag : DagBag α)
    (runsOf : String → DateTime → Option (DagRun α))
    (trigger : String → Option String → Option String → Option DateTime →
      Except PyExn String)
    (user : Option String) (rid conf : Option String)
    (dag_id task_id key value t : String)
    (hparse : strptime t = none) :
    trigger_dag trigger user dag_id ⟨rid, conf, some t⟩ =
      (⟨400, Body.json (JValue.obj
          [("error", JValue.str (dateErrorMessage t))])⟩,
       [Event.log (dateErrorMessage t)]) ∧
    dag_run_info strFn bag runsOf dag_id t =
      (⟨400, Body.json (JValue.obj
          [("error", JValue.str (dateErrorMessage t))])⟩,
       [Event.log (dateErrorMessage t)]) ∧
    task_instance_info strFn bag runsOf dag_id t task_id =
      (⟨400, Body.json (JValue.obj
          [("error", JValue.str (dateErrorMessage t))])⟩,
       [Event.log (dateErrorMessage t)]) ∧
    write_xcom bag dag_id task_id t key value =
      (⟨400, Body.json (JValue.obj
          [("error", JValue.str (dateErrorMessage t))])⟩,
       [Event.log (writeXcomLogLine dag_id task_id t key value),
        Event.log (dateErrorMessage t)]) ∧
    containsText (dateErrorMessage t) t ∧
    containsText (dateErrorMessage t) "2015-11-16T14:34:15" := by
  refine ⟨?_, ?_, ?_, ?_, dateErrorMessage_echoes_input t,
    dateErrorMessage_shows_example t⟩ <;>
  simp [trigger_dag, dag_run_info, task_instance_info, write_xcom, hparse]

theorem malformed_timestamp_rejected_witness :
    strptime "2020-13-40" = none ∧
    strptime "not-a-date" = none ∧
    (trigger_dag (fun _ _ _ _ => Except.ok "run") none "tutorial"
        ⟨none, none, some "2020-13-40"⟩ =
      (⟨400, Body.json (JValue.obj
          [("error", JValue.str (dateErrorMessage "2020-13-40"))])⟩,
       [Event.log (dateErrorMessage "2020-13-40")]) ∧
    dag_run_info (fun s : String => s) ⟨["tutorial"], fun _ => ⟨[], [], []⟩⟩
        (fun _ _ => none) "tutorial" "2020-13-40" =
      (⟨400, Body.json (JValue.obj
          [("error", JValue.str (dateErrorMessage "2020-13-40"))])⟩,
       [Event.log (dateErrorMessage "2020-13-40")]) ∧
    task_instance_info (fun s : String => s)
        ⟨["tutorial"], fun _ => ⟨[], [], []⟩⟩
        (fun _ _ => none) "tutorial" "2020-13-40" "print_date" =
      (⟨400, Body.json (JValue.obj
          [("error", JValue.str (dateErrorMessage "2020-13-40"))])⟩,
       [Event.log (dateErrorMessage "2020-13-40")]) ∧
    write_xcom (α := String) ⟨["tutorial"], fun _ => ⟨[], [], []⟩⟩
        "tutorial" "print_date" "2020-13-40" "status" "done" =
      (⟨400, Body.json (JValue.obj
          [("error", JValue.str (dateErrorMessage "2020-13-40"))])⟩,
       [Event.log (writeXcomLogLine "tutorial" "print_date" "2020-13-40"
          "status" "done"),
        Event.log (dateErrorMessage "2020-13-40")]) ∧
    containsText (dateErrorMessage "2020-13-40") "2020-13-40" ∧
    containsText (dateErrorMessage "2020-13-40") "2015-11-16T14:34:15") :=
  ⟨by decide, by decide,
   malformed_timestamp_rejected (fun s : String => s)
     ⟨["tutorial"], fun _ => ⟨[], [], []⟩⟩ (fun _ _ => none)
     (fun _ _ _ _ => Except.ok "run") none none none
     "tutorial" "print_date" "status" "done" "2020-13-40" (by decide)⟩

/-! ## C4: missing definition ids across the lookup chain -/

/-- C4: for every `dag_id` absent from the definition registry, each
lookup-chain endpoint answers 404 with an `{"error": message}` body whose
message contains that `dag_id`; in particular `get_dag` fails with the
message exactly `"Dag id {dag_id} not found"` without calling the
registry's retrieval (`write_xcom` checks the registry itself and uses the
message `"Dag {dag_id} not found"`). -/
theorem missing_dag_404
    {α : Type} (strFn : α → String) (bag : DagBag α)
    (runsOf : String → DateTime → Option (DagRun α))
    (dag_id task_id key value ed_str : String) (ed : DateTime)
    (hmiss : bag.dags.contains dag_id = false)
    (hed : strptime ed_str = some ed) :
    get_dag bag dag_id =
      (Except.error ("Dag id " ++ dag_id ++ " not found"), false) ∧
    dag_info strFn bag dag_id =
      ⟨404, Body.json (JValue.obj
        [("error", JValue.str ("Dag id " ++ dag_id ++ " not found"))])⟩ ∧
    (dag_run_info strFn bag runsOf dag_id ed_str).1 =
      ⟨404, Body.json (JValue.obj
        [("error", JValue.str ("Dag id " ++ dag_id ++ " not found"))])⟩ ∧
    task_info strFn bag dag_id task_id =
      ⟨404, Body.json (JValue.obj
        [("error", JValue.str ("Dag id " ++ dag_id ++ " not found"))])⟩ ∧
    (task_instance_info strFn bag runsOf dag_id ed_str task_id).1 =
      ⟨404, Body.json (JValue.obj
        [("error", JValue.str ("Dag id " ++ dag_id ++ " not found"))])⟩ ∧
    (write_xcom bag dag_id task_id ed_str key value).1 =
      ⟨404, Body.json (JValue.obj
        [("error", JValue.str ("Dag " ++ dag_id ++ " not found"))])⟩ ∧
    containsText ("Dag id " ++ dag_id ++ " not found") dag_id ∧
    containsText ("Dag " ++ dag_id ++ " not found") dag_id := by
  have hmem : ¬ dag_id ∈ bag.dags := by simpa using hmiss
  refine ⟨?_, ?_, ?_, ?_, ?_, ?_,
    ⟨"Dag id ", " not found", rfl⟩, ⟨"Dag ", " not found", rfl⟩⟩ <;>
  simp [get_dag, dag_info, dag_run_info, get_dag_run, task_info, get_task,
    task_instance_info, get_task_instance, write_xcom, hmiss, hed, hmem]

theorem missing_dag_404_witness :
    ((⟨["tutorial"], fun _ => ⟨[], [], []⟩⟩ : DagBag String).dags.contains
        "ghost" = false ∧
      strptime "2015-11-16T14:34:15" = some ⟨2015, 11, 16, 14, 34, 15⟩) ∧
    (get_dag (⟨["tutorial"], fun _ => ⟨[], [], []⟩⟩ : DagBag String) "ghost" =
      (Except.error ("Dag id " ++ "ghost" ++ " not found"), false) ∧
    dag_info (fun s : String => s) ⟨["tutorial"], fun _ => ⟨[], [], []⟩⟩
        "ghost" =
      ⟨404, Body.json (JValue.obj
        [("error", JValue.str ("Dag id " ++ "ghost" ++ " not found"))])⟩ ∧
    (dag_run_info (fun s : String => s) ⟨["tutorial"], fun _ => ⟨[], [], []⟩⟩
        (fun _ _ => none) "ghost" "2015-11-16T14:34:15").1 =
      ⟨404, Body.json (JValue.obj
        [("error", JValue.str ("Dag id " ++ "ghost" ++ " not found"))])⟩ ∧
    task_info (fun s : String => s) ⟨["tutorial"], fun _ => ⟨[], [], []⟩⟩
        "ghost" "print_date" =
      ⟨404, Body.json (JValue.obj
        [("error", JValue.str ("Dag id " ++ "ghost" ++ " not found"))])⟩ ∧
    (task_instance_info (fun s : String => s)
        ⟨["tutorial"], fun _ => ⟨[], [], []⟩⟩ (fun _ _ => none)
        "ghost" "2015-11-16T14:34:15" "print_date").1 =
      ⟨404, Body.json (JValue.obj
        [("error", JValue.str ("Dag id " ++ "ghost" ++ " not found"))])⟩ ∧
    (write_xcom (α := String) ⟨["tutorial"], fun _ => ⟨[], [], []⟩⟩
        "ghost" "print_date" "2015-11-16T14:34:15" "status" "done").1 =
      ⟨404, Body.json (JValue.obj
        [("error", JValue.str ("Dag " ++ "ghost" ++ " not found"))])⟩ ∧
    containsText ("Dag id " ++ "ghost" ++ " not found") "ghost" ∧
    containsText ("Dag " ++ "ghost" ++ " not found") "ghost") :=
  ⟨⟨by decide, by decide⟩,
   missing_dag_404 (fun s : String => s) ⟨["tutorial"], fun _ => ⟨[], [], []⟩⟩
     (fun _ _ => none) "ghost" "print_date" "status" "done"
     "2015-11-16T14:34:15" ⟨2015, 11, 16, 14, 34, 15⟩ (by decide) (by decide)⟩

/-! ## C5: the trigger endpoint and collaborator failures -/

/-- C5: whenever the collaborator `trigger.trigger_dag` fails with an
`AirflowException` (the duplicate-run-key conflict included), the
`trigger_dag` endpoint answers 404 with body `{"error": message}` formatted
from that exception and the exception never escapes — every branch below is
a returned `Response`; on success it answers a `{"message": "Created {dr}"}`
body naming the created run.  Stated both for a supplied well-formed
execution date and for an omitted one. -/
theorem trigger_dag_exception_mapped
    (trigger : String → Option String → Option String → Option DateTime →
      Except PyExn String)
    (user : Option String) (rid conf : Option String)
    (dag_id err dr s : String) (d : DateTime)
    (hs : strptime s = some d) :
    (trigger dag_id rid conf (some d) = Except.error err →
      trigger_dag trigger user dag_id ⟨rid, conf, some s⟩ =
        (⟨404, Body.json (JValue.obj [("error", JValue.str err)])⟩,
         [Event.triggerDagCall dag_id rid conf (some d), Event.log err])) ∧
    (trigger dag_id rid conf (some d) = Except.ok dr →
      (trigger_dag trigger user dag_id ⟨rid, conf, some s⟩).1 =
        ⟨200, Body.json (JValue.obj
          [("message", JValue.str ("Created " ++ dr))])⟩) ∧
    (trigger dag_id rid conf none = Except.error err →
      trigger_dag trigger user dag_id ⟨rid, conf, none⟩ =
        (⟨404, Body.json (JValue.obj [("error", JValue.str err)])⟩,
         [Event.triggerDagCall dag_id rid conf none, Event.log err])) ∧
    (trigger dag_id rid conf none = Except.ok dr →
      (trigger_dag trigger user dag_id ⟨rid, conf, none⟩).1 =
        ⟨200, Body.json (JValue.obj
          [("message", JValue.str ("Created " ++ dr))])⟩) := by
  refine ⟨fun h => ?_, fun h => ?_, fun h => ?_, fun h => ?_⟩ <;>
  simp [trigger_dag, trigger_dag_run, hs, h, jsonify]

theorem trigger_dag_exception_mapped_witness :
    (dupTrigger "tutorial" none none (some ⟨2015, 11, 16, 14, 34, 15⟩) =
      Except.error "A Dag Run already exists for dag id tutorial" →
      trigger_dag dupTrigger (some "admin") "tutorial"
          ⟨none, none, some "2015-11-16T14:34:15"⟩ =
        (⟨404, Body.json (JValue.obj [("error",
            JValue.str "A Dag Run already exists for dag id tutorial")])⟩,
         [Event.triggerDagCall "tutorial" none none
            (some ⟨2015, 11, 16, 14, 34, 15⟩),
          Event.log "A Dag Run already exists for dag id tutorial"])) ∧
    (dupTrigger "tutorial" none none (some ⟨2015, 11, 16, 14, 34, 15⟩) =
      Except.ok "<DagRun tutorial>" →
      (trigger_dag dupTrigger (some "admin") "tutorial"
          ⟨none, none, some "2015-11-16T14:34:15"⟩).1 =
        ⟨200, Body.json (JValue.obj [("message",
            JValue.str ("Created " ++ "<DagRun tutorial>"))])⟩) ∧
    (dupTrigger "tutorial" none none none =
      Except.error "A Dag Run already exists for dag id tutorial" →
      trigger_dag dupTrigger (some "admin") "tutorial" ⟨none, none, none⟩ =
        (⟨404, Body.json (JValue.obj [("error",
            JValue.str "A Dag Run already exists for dag id tutorial")])⟩,
         [Event.triggerDagCall "tutorial" none none none,
          Event.log "A Dag Run already exists for dag id tutorial"])) ∧
    (dupTrigger "tutorial" none none none = Except.ok "<DagRun tutorial>" →
      (trigger_dag dupTrigger (some "admin") "tutorial"
          ⟨none, none, none⟩).1 =
        ⟨200, Body.json (JValue.obj [("message",
            JValue.str ("Created " ++ "<DagRun tutorial>"))])⟩) :=
  trigger_dag_exception_mapped dupTrigger (some "admin") none none "tutorial"
    "A Dag Run already exists for dag id tutorial" "<DagRun tutorial>"
    "2015-11-16T14:34:15" ⟨2015, 11, 16, 14, 34, 15⟩ (by decide)

theorem test_endpoint_amended_witness :
    (requires_authentication (fun _ _ => Except.ok ())
      (Except.ok test) none).response = _forbidden ∧
    requires_authentication (fun _ _ => Except.ok ())
        (Except.ok test) (some ⟨"alice", "secret"⟩) =
      ⟨⟨200, Body.json (JValue.obj [("status", JValue.str "OK")])⟩, true⟩ :=
  test_endpoint_amended _ ⟨"alice", "secret"⟩ rfl

/-! ## C6, C7: the introspection serializer on runs and definitions -/

/-- Every entry of a serialized mapping has a key that does not begin with
the non-public marker and a value obtained by `str` from one of the
object's attribute values under that key. -/
theorem serializeObj_entry {α : Type} {strFn : α → String}
    {attrs : List (String × α)} {kv : String × JValue}
    (hkv : kv ∈ serializeObj strFn attrs) :
    startsWithUnderscore kv.1 = false ∧
    ∃ v, (kv.1, v) ∈ attrs ∧ kv.2 = JValue.str (strFn v) := by
  unfold serializeObj at hkv
  rcases List.mem_map.mp hkv with ⟨kw, hkw, rfl⟩
  rcases List.mem_filter.mp hkw with ⟨hmem, hfilt⟩
  refine ⟨?_, kw.2, hmem, rfl⟩
  simpa using hfilt

/-- C6: on a run with N step instances, the `dag_run_info` body is exactly
the mapping of the run's non-underscore attribute names to `str`-converted
values plus a `task_instances` entry holding a sequence of exactly N
serialized instance mappings, each flat, string-keyed, `str`-valued and
free of keys beginning with the non-public marker. -/
theorem dag_run_info_serialization
    {α : Type} (strFn : α → String) (bag : DagBag α)
    (runsOf : String → DateTime → Option (DagRun α))
    (dag_id ed_str : String) (ed : DateTime) (run : DagRun α)
    (hs : strptime ed_str = some ed)
    (hdag : bag.dags.contains dag_id = true)
    (hrun : runsOf dag_id ed = some run)
    (hnoclash : run.attrs.any (fun kv => kv.1 == "task_instances") = false) :
    (dag_run_info strFn bag runsOf dag_id ed_str).1 =
      ⟨200, Body.json (JValue.obj (
        (run.attrs.filter (fun kv => !(startsWithUnderscore kv.1))).map
          (fun kv => (kv.1, JValue.str (strFn kv.2))) ++
        [("task_instances", JValue.arr (run.task_instances.map
          (fun ti => JValue.obj (serializeObj strFn ti.2))))]))⟩ ∧
    (run.task_instances.map
      (fun ti => JValue.obj (serializeObj strFn ti.2))).length =
        run.task_instances.length ∧
    (∀ ti ∈ run.task_instances, ∀ kv ∈ serializeObj strFn ti.2,
      startsWithUnderscore kv.1 = false ∧
      ∃ v, (kv.1, v) ∈ ti.2 ∧ kv.2 = JValue.str (strFn v)) := by
  have hmem : dag_id ∈ bag.dags := by simpa using hdag
  refine ⟨?_, List.length_map _ _, fun ti _ kv hkv => serializeObj_entry hkv⟩
  simp [dag_run_info, get_dag_run, hs, hmem, hrun, jsonify, serializeObj]
  exact dictInsert_fresh _ _ _
    (serializeObj_no_key strFn run.attrs "task_instances" hnoclash)

theorem dag_run_info_serialization_witness :
    (strptime "2015-11-16T14:34:15" = some ⟨2015, 11, 16, 14, 34, 15⟩ ∧
      sampleBag.dags.contains "tutorial" = true ∧
      sampleRunsOf "tutorial" ⟨2015, 11, 16, 14, 34, 15⟩ = some sampleRun ∧
      sampleRun.attrs.any (fun kv => kv.1 == "task_instances") = false) ∧
    ((dag_run_info (fun s : String => s) sampleBag sampleRunsOf
        "tutorial" "2015-11-16T14:34:15").1 =
      ⟨200, Body.json (JValue.obj (
        (sampleRun.attrs.filter (fun kv => !(startsWithUnderscore kv.1))).map
          (fun kv => (kv.1, JValue.str kv.2)) ++
        [("task_instances", JValue.arr (sampleRun.task_instances.map
          (fun ti => JValue.obj (serializeObj (fun s : String => s) ti.2))))]))⟩ ∧
    (sampleRun.task_instances.map
      (fun ti => JValue.obj (serializeObj (fun s : String => s) ti.2))).length =
        sampleRun.task_instances.length ∧
    (∀ ti ∈ sampleRun.task_instances,
      ∀ kv ∈ serializeObj (fun s : String => s) ti.2,
      startsWithUnderscore kv.1 = false ∧
      ∃ v, (kv.1, v) ∈ ti.2 ∧ kv.2 = JValue.str v)) :=
  ⟨⟨by decide, by decide, rfl, by decide⟩,
   dag_run_info_serialization (fun s : String => s) sampleBag sampleRunsOf
     "tutorial" "2015-11-16T14:34:15" ⟨2015, 11, 16, 14, 34, 15⟩ sampleRun
     (by decide) (by decide) rfl (by decide)⟩

/-- C7: for every existing definition, `dag_info` answers 200 with the
mapping of the definition's non-underscore attribute names to
`str`-converted values plus an `active_runs` entry listing the active run
timestamps in ISO textual form. -/
theorem dag_info_serialization
    {α : Type} (strFn : α → String) (bag : DagBag α) (dag_id : String)
    (hdag : bag.dags.contains dag_id = true)
    (hnoclash : (bag.get_dag dag_id).attrs.any
      (fun kv => kv.1 == "active_runs") = false) :
    dag_info strFn bag dag_id =
      ⟨200, Body.json (JValue.obj (
        ((bag.get_dag dag_id).attrs.filter
            (fun kv => !(startsWithUnderscore kv.1))).map
          (fun kv => (kv.1, JValue.str (strFn kv.2))) ++
        [("active_runs", JValue.arr ((bag.get_dag dag_id).active_runs.map
          (fun d => JValue.str d.isoformat)))]))⟩ ∧
    (∀ kv ∈ serializeObj strFn (bag.get_dag dag_id).attrs,
      startsWithUnderscore kv.1 = false ∧
      ∃ v, (kv.1, v) ∈ (bag.get_dag dag_id).attrs ∧
        kv.2 = JValue.str (strFn v)) := by
  have hmem : dag_id ∈ bag.dags := by simpa using hdag
  refine ⟨?_, fun kv hkv => serializeObj_entry hkv⟩
  simp [dag_info, get_dag, hmem, jsonify, serializeObj]
  exact dictInsert_fresh _ _ _
    (serializeObj_no_key strFn (bag.get_dag dag_id).attrs "active_runs"
      hnoclash)

theorem dag_info_serialization_witness :
    (sampleBag.dags.contains "tutorial" = true ∧
      (sampleBag.get_dag "tutorial").attrs.any
        (fun kv => kv.1 == "active_runs") = false) ∧
    (dag_info (fun s : String => s) sampleBag "tutorial" =
      ⟨200, Body.json (JValue.obj (
        ((sampleBag.get_dag "tutorial").attrs.filter
            (fun kv => !(startsWithUnderscore kv.1))).map
          (fun kv => (kv.1, JValue.str kv.2)) ++
        [("active_runs",
          JValue.arr ((sampleBag.get_dag "tutorial").active_runs.map
            (fun d => JValue.str d.isoformat)))]))⟩ ∧
    (∀ kv ∈ serializeObj (fun s : String => s)
        (sampleBag.get_dag "tutorial").attrs,
      startsWithUnderscore kv.1 = false ∧
      ∃ v, (kv.1, v) ∈ (sampleBag.get_dag "tutorial").attrs ∧
        kv.2 = JValue.str v)) :=
  ⟨⟨by decide, by decide⟩,
   dag_info_serialization (fun s : String => s) sampleBag "tutorial"
     (by decide) (by decide)⟩

/-! ## C8: the XCom write path -/

/-- Looking a coordinate up right at the head of the store. -/
theorem xcomStoreGet_cons_pos (e : XComCoord × String)
    (l : List (XComCoord × String)) (c : XComCoord)
    (h : (e.1 == c) = true) : xcomStoreGet (e :: l) c = some e.2 := by
  unfold xcomStoreGet
  rw [List.find?_cons_of_pos]
  · rfl
  · exact h

/-- Looking a coordinate up past a non-matching head. -/
theorem xcomStoreGet_cons_neg (e : XComCoord × String)
    (l : List (XComCoord × String)) (c : XComCoord)
    (h : (e.1 == c) = false) : xcomStoreGet (e :: l) c = xcomStoreGet l c := by
  unfold xcomStoreGet
  rw [List.find?_cons_of_neg]
  simp [h]

/-- The upsert property of the modelled `XCom.set`: reading the coordinate
back after a write yields the written value, whether or not the store
already held the key (an existing entry is overwritten). -/
theorem xcomStore_get_set (store : List (XComCoord × String)) (c : XComCoord)
    (v : String) :
    xcomStoreGet (xcomStoreSet store c v) c = some v := by
  unfold xcomStoreSet
  by_cases hany : store.any (fun e => e.1 == c) = true
  · rw [if_pos hany]
    induction store with
    | nil => simp at hany
    | cons e rest ih =>
      by_cases he : (e.1 == c) = true
      · rw [List.map_cons, if_pos (by simpa using he)]
        exact xcomStoreGet_cons_pos _ _ _ (by simp)
      · have he' : (e.1 == c) = false := by simpa using he
        rw [List.map_cons, if_neg (by simp [he'])]
        rw [xcomStoreGet_cons_neg _ _ _ he']
        apply ih
        rcases List.any_eq_true.mp hany with ⟨x, hx, hpx⟩
        rcases List.mem_cons.mp hx with rfl | hx
        · rw [he'] at hpx; exact Bool.noConfusion hpx
        · exact List.any_eq_true.mpr ⟨x, hx, hpx⟩
  · rw [if_neg hany]
    induction store with
    | nil => exact xcomStoreGet_cons_pos _ _ _ (by simp)
    | cons e rest ih =>
      have he : (e.1 == c) = false := by
        rcases Bool.eq_false_iff.mp (Bool.not_eq_true _ ▸ hany) with _
        by_contra hc
        exact hany (List.any_eq_true.mpr
          ⟨e, List.mem_cons_self e rest, by simpa using hc⟩)
      rw [List.cons_append, xcomStoreGet_cons_neg _ _ _ he]
      apply ih
      intro hr
      exact hany (by
        rcases List.any_eq_true.mp hr with ⟨x, hx, hpx⟩
        exact List.any_eq_true.mpr ⟨x, List.mem_cons_of_mem e hx, hpx⟩)

/-- C8: whenever the execution date parses and the dag id is registered,
`write_xcom` first emits the audit log line naming all five coordinates,
then performs exactly one `XCom.set` invocation with those coordinates,
then answers the success message naming them — for every `task_id`, `key`
and `value` whatsoever, i.e. with no existence check on the step instance
before the write; and the modelled `XCom.set` upserts: reading the
coordinate back after the write yields the written value even when the
store already held the key. -/
theorem write_xcom_logs_then_sets
    {α : Type} (bag : DagBag α) (dag_id task_id ed_str key value : String)
    (ed : DateTime)
    (hs : strptime ed_str = some ed)
    (hdag : bag.dags.contains dag_id = true) :
    write_xcom bag dag_id task_id ed_str key value =
      (⟨200, Body.json (JValue.obj [("message",
          JValue.str (xcomSetMessage dag_id task_id ed key value))])⟩,
       [Event.log (writeXcomLogLine dag_id task_id ed_str key value),
        Event.xcomSetCall dag_id task_id ed key value]) ∧
    (∀ store, xcomStoreGet
        (xcomStoreSet store ⟨dag_id, task_id, ed, key⟩ value)
        ⟨dag_id, task_id, ed, key⟩ = some value) := by
  have hmem : dag_id ∈ bag.dags := by simpa using hdag
  exact ⟨by simp [write_xcom, hs, hmem, jsonify],
    fun store => xcomStore_get_set store _ value⟩

theorem write_xcom_logs_then_sets_witness :
    (strptime "2015-11-16T14:34:15" = some ⟨2015, 11, 16, 14, 34, 15⟩ ∧
      sampleBag.dags.contains "tutorial" = true) ∧
    (write_xcom (α := String) sampleBag "tutorial" "print_date"
        "2015-11-16T14:34:15" "status" "done" =
      (⟨200, Body.json (JValue.obj [("message",
          JValue.str (xcomSetMessage "tutorial" "print_date"
            ⟨2015, 11, 16, 14, 34, 15⟩ "status" "done"))])⟩,
       [Event.log (writeXcomLogLine "tutorial" "print_date"
          "2015-11-16T14:34:15" "status" "done"),
        Event.xcomSetCall "tutorial" "print_date"
          ⟨2015, 11, 16, 14, 34, 15⟩ "status" "done"]) ∧
    (∀ store, xcomStoreGet
        (xcomStoreSet store
          ⟨"tutorial", "print_date", ⟨2015, 11, 16, 14, 34, 15⟩, "status"⟩
          "done")
        ⟨"tutorial", "print_date", ⟨2015, 11, 16, 14, 34, 15⟩, "status"⟩ =
      some "done")) :=
  ⟨⟨by decide, by decide⟩,
   write_xcom_logs_then_sets sampleBag "tutorial" "print_date"
     "2015-11-16T14:34:15" "status" "done" ⟨2015, 11, 16, 14, 34, 15⟩
     (by decide) (by decide)⟩

/-! ## C10: the latest-runs listing -/

/-- The number of kept elements of a `filterMap` is the number of inputs on
which the function produces a value. -/
theorem length_filterMap_isSome {β γ : Type} (f : β → Option γ)
    (l : List β) :
    (l.filterMap f).length = (l.filter (fun x => (f x).isSome)).length := by
  induction l with
  | nil => rfl
  | cons a l ih =>
    cases h : f a <;>
    simp [List.filterMap_cons, h, List.filter_cons, ih]

/-- C10: `latest_dag_runs` answers 200 with one entry per latest run whose
`execution_date` is present (runs without one are silently omitted), and
each entry is exactly the four-key mapping `dag_id`, `execution_date`,
`start_date`, `dag_run_url` with both dates in the `"%Y-%m-%d %H:%M"`
rendering and `start_date` the empty string when the run has no start
date. -/
theorem latest_dag_runs_shape (url_for : String → DateTime → String)
    (dagruns : List DagRunLite) :
    ∃ payload : List JValue,
      latest_dag_runs url_for dagruns =
        ⟨200, Body.json (JValue.arr payload)⟩ ∧
      payload.length =
        (dagruns.filter (fun r => r.execution_date.isSome)).length ∧
      (∀ r ∈ dagruns, ∀ ed, r.execution_date = some ed →
        JValue.obj
          [("dag_id", JValue.str r.dag_id),
           ("execution_date", JValue.str ed.strftimeYmdHM),
           ("start_date", JValue.str
             (match r.start_date with
              | none => ""
              | some sd => sd.strftimeYmdHM)),
           ("dag_run_url", JValue.str (url_for r.dag_id ed))] ∈ payload) ∧
      (∀ e ∈ payload, ∃ r ∈ dagruns, ∃ ed, r.execution_date = some ed ∧
        e = JValue.obj
          [("dag_id", JValue.str r.dag_id),
           ("execution_date", JValue.str ed.strftimeYmdHM),
           ("start_date", JValue.str
             (match r.start_date with
              | none => ""
              | some sd => sd.strftimeYmdHM)),
           ("dag_run_url", JValue.str (url_for r.dag_id ed))]) := by
  refine ⟨dagruns.filterMap (fun r =>
    match r.execution_date with
    | none => none
    | some ed => some (latestRunEntry url_for r ed)), ?_, ?_, ?_, ?_⟩
  · rfl
  · rw [length_filterMap_isSome]
    congr 1
    apply List.filter_congr
    intro r _
    cases h : r.execution_date <;> simp [h]
  · intro r hr ed hed
    exact List.mem_filterMap.mpr ⟨r, hr, by simp [hed, latestRunEntry]⟩
  · intro e he
    rcases List.mem_filterMap.mp he with ⟨r, hr, hfr⟩
    cases h : r.execution_date with
    | none => rw [h] at hfr; exact absurd hfr (by simp)
    | some ed =>
      rw [h] at hfr
      refine ⟨r, hr, ed, h, ?_⟩
      have := Option.some.inj hfr
      rw [← this, latestRunEntry]

end Airflow
